import Mathlib

/-!
Shallow embedding of src/quart_schema/validation.py.

The module under verification defines three decorator factories over an
async web framework (quart) and a validation library (pydantic):
validate_querystring, validate_request and validate_response.  The
embedding models:

* a pydantic model class as a list of field specifications (name, declared
  type, optional default value); keyword construction checks each declared
  field against the supplied mapping, ignores extra keys for plain models,
  raises TypeError for a dataclass model given an unexpected keyword (the
  same exception class CPython raises for non string keys under the
  double star operator), and raises ValidationError for a missing required
  field or an ill typed value — the external contract the source relies
  on;
* serialization (pydantic .dict() and dataclasses.asdict) as the list of
  field values held by an instance;
* each request-time wrapper as a pure function from the request data and
  the handler to a pair of the list of handler invocations performed
  (argument bundle plus extra keyword arguments) and either a raised
  exception or the returned value.

Decoration-time state of validate_response: the source stores the
status-to-schema dict as an attribute on the wrapped function, and
functools.wraps copies the wrapped function attribute dict onto each new
wrapper.  getattr therefore hands every stacked decorator THE SAME dict
object, each decorator mutates it in place, and every wrapper closure
reads the final accumulated registry at request time.  responseStack
models a stack of response decorators accordingly: one shared registry
built from all layers, then one wrapper step per decorator applied to the
handler result, innermost decorator first, each step keeping its own
model class but consulting the shared registry.
-/

namespace QuartSchema

/-- Field value types appearing in the embedded models. -/
inductive Ty
  | int
  | str
  deriving DecidableEq, Repr

/-- Runtime values appearing in query strings, JSON bodies and response
bodies. -/
inductive Val
  | vint (n : Int)
  | vstr (s : String)
  deriving DecidableEq, Repr

/-- Type membership test used by model construction. -/
def Val.hasTy : Val → Ty → Bool
  | .vint _, .int => true
  | .vstr _, .str => true
  | _, _ => false

/-- One declared model field: its name, its type and its default value
when the field is optional. -/
structure FieldSpec where
  name : String
  ty : Ty
  default : Option Val
  deriving DecidableEq, Repr

/-- A model class (either a pydantic BaseModel subclass or a pydantic
dataclass); the name stands for class identity. -/
structure ModelClass where
  name : String
  isDataclass : Bool
  fields : List FieldSpec
  deriving DecidableEq, Repr

/-- A Python dict with string keys, as an association list. -/
abbrev Map := List (String × Val)

/-- The part of a generated schema the source reads: the list stored at
the key "required" (empty when the key is absent). -/
structure Schema where
  required : List String
  deriving DecidableEq, Repr

/-- model_schema of the validation library: the required list collects the
names of the fields declared without a default. -/
def model_schema (mc : ModelClass) : Schema :=
  ⟨(mc.fields.filter (fun f => f.default.isNone)).map FieldSpec.name⟩

/-- The two exception classes keyword construction of a model can raise. -/
inductive ConstructError
  | typeError
  | validationError
  deriving DecidableEq, Repr

/-- A validated model instance: its class and its field values in
declaration order. -/
structure ModelInstance where
  cls : ModelClass
  values : List (String × Val)
  deriving DecidableEq, Repr

/-- Value of one field under keyword construction: the keyword argument
when present (checked against the declared type), else the declared
default, else a validation failure. -/
def constructField (m : Map) (f : FieldSpec) : Except ConstructError Val :=
  match m.lookup f.name with
  | some v => if v.hasTy f.ty then .ok v else .error .validationError
  | none =>
    match f.default with
    | some d => .ok d
    | none => .error .validationError

/-- Values of all declared fields, in declaration order. -/
def constructFields (m : Map) : List FieldSpec → Except ConstructError (List (String × Val))
  | [] => .ok []
  | f :: fs =>
    match constructField m f with
    | .error e => .error e
    | .ok v =>
      match constructFields m fs with
      | .error e => .error e
      | .ok vs => .ok ((f.name, v) :: vs)

/-- Keyword construction, the call of model_class on the unpacked mapping
m: a dataclass model
raises TypeError on an unexpected keyword argument; a plain model ignores
extra keys; field validation raises ValidationError. -/
def construct (mc : ModelClass) (m : Map) : Except ConstructError ModelInstance :=
  if mc.isDataclass && m.any (fun kv => mc.fields.all (fun f => f.name != kv.1)) then
    .error .typeError
  else
    match constructFields m mc.fields with
    | .error e => .error e
    | .ok vs => .ok ⟨mc, vs⟩

/-- dataclasses.asdict on a model instance. -/
def asdict (i : ModelInstance) : Map := i.values

/-- pydantic BaseModel .dict() on a model instance. -/
def ModelInstance.dict (i : ModelInstance) : Map := i.values

/-- Serialization branch of the response wrapper: asdict when
is_dataclass(model_value), .dict() otherwise. -/
def serializeInstance (i : ModelInstance) : Map :=
  if i.cls.isDataclass then asdict i else ModelInstance.dict i

/-- Exceptions observable at the wrapper boundary: the three classes the
module defines plus an uncaught TypeError propagating unchanged. -/
inductive PyError
  | schemaInvalidError
  | requestSchemaValidationError
  | responseSchemaValidationError
  | typeError
  deriving DecidableEq, Repr

/-- RequestSchemaValidationError derives quart BadRequest, hence stands
for an HTTP 400 client error; the other exceptions do not. -/
def PyError.isBadRequest : PyError → Bool
  | .requestSchemaValidationError => true
  | _ => false

/-- Decoration-time body of validate_querystring: derive the schema of the
model class and raise SchemaInvalidError when the schema has any required
field; otherwise hand the schema to the decorator. -/
def validate_querystring_decoration (mc : ModelClass) : Except PyError Schema :=
  if (model_schema mc).required.length != 0 then
    .error .schemaInvalidError
  else
    .ok (model_schema mc)

/-- One handler invocation: the original argument bundle plus the extra
keyword arguments the wrapper adds. -/
abbrev CallRecord (A : Type) := A × List (String × ModelInstance)

/-- The try/except/else statement of the querystring wrapper.  The first
component lists the handler invocations performed; the second is some r
when the statement leaves the wrapper (raising or returning r), none when
control would fall through to the next statement. -/
def qs_tryBlock {A R : Type} (mc : ModelClass)
    (handler : A → List (String × ModelInstance) → R) (args : A) (reqArgs : Map) :
    List (CallRecord A) × Option (Except PyError (Option R)) :=
  match construct mc reqArgs with
  | .error _ => ([], some (.error .requestSchemaValidationError))
  | .ok i =>
    ([(args, [("query_args", i)])],
      some (.ok (some (handler args [("query_args", i)]))))

/-- Request-time wrapper of validate_querystring, trailing return
statement included: on fall through it would invoke the handler a second
time without the query_args keyword. -/
def qs_wrapper {A R : Type} (mc : ModelClass)
    (handler : A → List (String × ModelInstance) → R) (args : A) (reqArgs : Map) :
    List (CallRecord A) × Except PyError (Option R) :=
  match qs_tryBlock mc handler args reqArgs with
  | (calls, some r) => (calls, r)
  | (calls, none) => (calls ++ [(args, [])], .ok (some (handler args [])))

/-- The same wrapper with the trailing return statement removed: falling
off the end of a Python function returns None without a handler call. -/
def qs_wrapper_trimmed {A R : Type} (mc : ModelClass)
    (handler : A → List (String × ModelInstance) → R) (args : A) (reqArgs : Map) :
    List (CallRecord A) × Except PyError (Option R) :=
  match qs_tryBlock mc handler args reqArgs with
  | (calls, some r) => (calls, r)
  | (calls, none) => (calls, .ok none)

/-- JSON body handed back by await request.get_json(): either a dict or
some non mapping value (null, list, scalar) on which the double star
operator raises TypeError. -/
inductive JsonBody
  | mapping (m : Map)
  | nonMapping
  deriving DecidableEq, Repr

/-- The call of model_class on the unpacked JSON body. -/
def constructFromJson (mc : ModelClass) (b : JsonBody) : Except ConstructError ModelInstance :=
  match b with
  | .mapping m => construct mc m
  | .nonMapping => .error .typeError

/-- Request-time wrapper of validate_request: construct the model from the
JSON body, translate TypeError and ValidationError into
RequestSchemaValidationError, otherwise call the handler once with the
extra keyword argument data and return its result. -/
def req_wrapper {A R : Type} (mc : ModelClass)
    (handler : A → List (String × ModelInstance) → R) (args : A) (body : JsonBody) :
    List (CallRecord A) × Except PyError (Option R) :=
  match constructFromJson mc body with
  | .error _ => ([], .error .requestSchemaValidationError)
  | .ok i => ([(args, [("data", i)])], .ok (some (handler args [("data", i)])))

/-- Body element of a handler result: a dict, a model instance, or any
other value shape. -/
inductive Body
  | map (m : Map)
  | inst (i : ModelInstance)
  | other
  deriving DecidableEq, Repr

/-- Second tuple element of a handler result: absent (None), a Headers
value, a dict, a list, or an int-like status value. -/
inductive SOH
  | noneV
  | headersV (h : String)
  | dictV
  | listV
  | intV (n : Int)
  deriving DecidableEq, Repr

/-- Handler result: a bare value or a tuple of one, two or three elements,
the shapes accepted by the padding-with-None unpacking expression of the
source. -/
inductive HandlerResult
  | bare (v : Body)
  | tuple1 (v : Body)
  | tuple2 (v : Body) (soh : SOH)
  | tuple3 (v : Body) (soh : SOH) (headers : Option String)
  deriving DecidableEq, Repr

/-- Unpacking of a handler result into (value, status_or_headers,
headers), missing tuple elements padded with None. -/
def unpack : HandlerResult → Body × SOH × Option String
  | .bare v => (v, .noneV, none)
  | .tuple1 v => (v, .noneV, none)
  | .tuple2 v s => (v, s, none)
  | .tuple3 v s h => (v, s, h)

/-- Effective status computation: 200 unless status_or_headers is a non
None value that is not a Headers, dict or list instance, in which case
int(status_or_headers). -/
def effectiveStatus : SOH → Int
  | .intV n => n
  | _ => 200

/-- Effective status of a whole handler result. -/
def responseStatus (r : HandlerResult) : Int :=
  effectiveStatus (unpack r).2.1

/-- Python dict assignment schemas[status_code] = schema: overwrite in
place when the key exists, append otherwise. -/
def registryInsert (reg : List (Int × Schema)) (k : Int) (v : Schema) :
    List (Int × Schema) :=
  if reg.any (fun kv => kv.1 == k) then
    reg.map (fun kv => if kv.1 == k then (k, v) else kv)
  else
    reg ++ [(k, v)]

/-- Registry accumulated by a stack of validate_response decorators,
innermost decorator first; all layers share the one dict object. -/
def buildRegistry (decs : List (ModelClass × Int)) : List (Int × Schema) :=
  decs.foldl (fun reg d => registryInsert reg d.2 (model_schema d.1)) []

/-- Request-time wrapper of validate_response for one decorator layer.
The layer consults the shared registry reg but validates with its own
model class: a dict body is constructed (only ValidationError translated
into ResponseSchemaValidationError), a body whose type is exactly the
model class is used as is, anything else raises
ResponseSchemaValidationError; on success the serialized mapping is
returned with the original status_or_headers and headers elements; a
status with no registered schema returns the result unchanged. -/
def responseWrapperStep (mc : ModelClass) (reg : List (Int × Schema))
    (result : HandlerResult) : Except PyError HandlerResult :=
  match unpack result with
  | (value, soh, headers) =>
    if (reg.lookup (effectiveStatus soh)).isSome then
      match value with
      | .map m =>
        match construct mc m with
        | .error .validationError => .error .responseSchemaValidationError
        | .error .typeError => .error .typeError
        | .ok i => .ok (.tuple3 (.map (serializeInstance i)) soh headers)
      | .inst i =>
        if i.cls = mc then .ok (.tuple3 (.map (serializeInstance i)) soh headers)
        else .error .responseSchemaValidationError
      | .other => .error .responseSchemaValidationError
    else
      .ok result

/-- A whole stack of response decorators applied to one handler result,
innermost decorator first in the list: the innermost wrapper transforms
the handler result first and each outer wrapper transforms the value the
layer below returned; a raised exception propagates past the outer
layers. -/
def responseStack (decs : List (ModelClass × Int)) (hres : HandlerResult) :
    Except PyError HandlerResult :=
  decs.foldl
    (fun acc d => acc.bind (fun r => responseWrapperStep d.1 (buildRegistry decs) r))
    (.ok hres)

/-- The validate-then-serialize step of the response wrapper on a mapping
body. -/
def validateSerialize (mc : ModelClass) (m : Map) : Except ConstructError Map :=
  match construct mc m with
  | .error e => .error e
  | .ok i => .ok (serializeInstance i)

/-- Boolean well-typedness of a declared default value (a sane model class
declares defaults matching the declared field types). -/
def FieldSpec.defaultWellTyped (f : FieldSpec) : Bool :=
  match f.default with
  | some d => d.hasTy f.ty
  | none => true

/-- Example all-optional querystring model. -/
def mcQ : ModelClass := ⟨"Q", false, [⟨"q", .str, some (.vstr "")⟩]⟩

/-- Example response model with a required int field id and an optional
str field. -/
def mcU : ModelClass := ⟨"U", false, [⟨"id", .int, none⟩, ⟨"nm", .str, some (.vstr "")⟩]⟩

/-- Example dataclass model with one required int field. -/
def mcD : ModelClass := ⟨"D", true, [⟨"d", .int, none⟩]⟩

/-- Example 200 response model with a required int field a. -/
def modelA : ModelClass := ⟨"A", false, [⟨"a", .int, none⟩]⟩

/-- Example 404 response model with a required str field b. -/
def modelB : ModelClass := ⟨"B", false, [⟨"b", .str, none⟩]⟩

/-- Example handler counting its extra keyword arguments. -/
def exHandler : Nat → List (String × ModelInstance) → Nat :=
  fun a kws => a + kws.length

/-- Example registry of one response decorator registering mcU at 200. -/
def regU : List (Int × Schema) := [((200 : Int), model_schema mcU)]

/-- Example registry of one response decorator registering mcD at 200. -/
def regD : List (Int × Schema) := [((200 : Int), model_schema mcD)]

/-- Example mapping accepted by mcU. -/
def exUMap : Map := [("id", .vint 1), ("nm", .vstr "a")]

/-- The instance mcU constructs from exUMap. -/
def exUInst : ModelInstance := ⟨mcU, [("id", .vint 1), ("nm", .vstr "a")]⟩

/-- Example querystring mapping accepted by mcQ. -/
def exQMap : Map := [("q", .vstr "hi")]

/-- The instance mcQ constructs from exQMap. -/
def exQInst : ModelInstance := ⟨mcQ, [("q", .vstr "hi")]⟩

/-- Helper: the required list of a schema is nonempty exactly when some
field is declared without a default. -/
theorem required_length_pos_iff (fs : List FieldSpec) :
    0 < (fs.filter fun f => f.default.isNone).length ↔
      ∃ f ∈ fs, f.default = none := by
  induction fs with
  | nil => simp
  | cons f fs ih =>
    cases h : f.default with
    | none => simp [List.filter_cons, h]
    | some d => simp [List.filter_cons, h, ih]

/-- C1: stacking validate_response for 404 (inner) and 200 (outer) on a
handler that returns status 404 with a body matching the 404 model does
not skip validation against the 200 model: functools.wraps shares the
schemas dict across layers, so the outer layer sees 404 registered and
validates the body with its own 200 model, rejecting it — in either
stacking order — while the single 404 decorator alone accepts the same
result.  This evaluates the code at the failing input of the claim. -/
theorem stacked_response_crossvalidates :
    responseStack [(modelB, 404), (modelA, 200)]
        (.tuple2 (.map [("b", .vstr "x")]) (.intV 404)) =
      .error .responseSchemaValidationError ∧
    responseStack [(modelA, 200), (modelB, 404)]
        (.tuple2 (.map [("b", .vstr "x")]) (.intV 404)) =
      .error .responseSchemaValidationError ∧
    responseStack [(modelB, 404)]
        (.tuple2 (.map [("b", .vstr "x")]) (.intV 404)) =
      .ok (.tuple3 (.map [("b", .vstr "x")]) (.intV 404) none) :=
  ⟨rfl, rfl, rfl⟩

/-- C2: validate_querystring raises SchemaInvalidError at decoration time
exactly when the derived schema has at least one required field,
equivalently when some model field lacks a default; with zero required
fields the decoration succeeds. -/
theorem querystring_decoration_requires_optional (mc : ModelClass) :
    (validate_querystring_decoration mc = .error .schemaInvalidError ↔
        0 < (model_schema mc).required.length) ∧
    (validate_querystring_decoration mc = .ok (model_schema mc) ↔
        (model_schema mc).required.length = 0) ∧
    (0 < (model_schema mc).required.length ↔
        ∃ f ∈ mc.fields, f.default = none) := by
  refine ⟨?_, ?_, by simpa [model_schema] using required_length_pos_iff mc.fields⟩
  · rcases Nat.eq_zero_or_pos (model_schema mc).required.length with h | h
    · simp [validate_querystring_decoration, h]
    · have hne : (model_schema mc).required.length ≠ 0 := Nat.pos_iff_ne_zero.mp h
      simp [validate_querystring_decoration, hne, h]
  · rcases Nat.eq_zero_or_pos (model_schema mc).required.length with h | h
    · simp [validate_querystring_decoration, h]
    · have hne : (model_schema mc).required.length ≠ 0 := Nat.pos_iff_ne_zero.mp h
      simp [validate_querystring_decoration, hne]

/-- C3: the querystring wrapper raises RequestSchemaValidationError (an
HTTP 400 client error) and never invokes the handler when constructing
the model from the query arguments raises TypeError or ValidationError;
otherwise it invokes the handler exactly once, with the original
arguments plus the keyword argument query_args bound to the validated
instance, and returns the handler result unchanged. -/
theorem querystring_wrapper_spec {A R : Type} (mc : ModelClass)
    (handler : A → List (String × ModelInstance) → R) (args : A) (reqArgs : Map) :
    (∀ e, construct mc reqArgs = .error e →
        qs_wrapper mc handler args reqArgs =
          ([], .error .requestSchemaValidationError)) ∧
    (∀ i, construct mc reqArgs = .ok i →
        qs_wrapper mc handler args reqArgs =
          ([(args, [("query_args", i)])],
            .ok (some (handler args [("query_args", i)])))) ∧
    PyError.isBadRequest .requestSchemaValidationError = true := by
  refine ⟨?_, ?_, rfl⟩
  · intro e he
    simp [qs_wrapper, qs_tryBlock, he]
  · intro i hi
    simp [qs_wrapper, qs_tryBlock, hi]

/-- C4: the request-body wrapper raises RequestSchemaValidationError (an
HTTP 400 client error) and never invokes the handler when constructing
the model from the awaited JSON body raises TypeError or ValidationError;
otherwise it invokes the handler exactly once, with the original
arguments plus the keyword argument data bound to the validated instance,
and returns the handler result unchanged. -/
theorem request_wrapper_spec {A R : Type} (mc : ModelClass)
    (handler : A → List (String × ModelInstance) → R) (args : A) (body : JsonBody) :
    (∀ e, constructFromJson mc body = .error e →
        req_wrapper mc handler args body =
          ([], .error .requestSchemaValidationError)) ∧
    (∀ i, constructFromJson mc body = .ok i →
        req_wrapper mc handler args body =
          ([(args, [("data", i)])],
            .ok (some (handler args [("data", i)])))) ∧
    PyError.isBadRequest .requestSchemaValidationError = true := by
  refine ⟨?_, ?_, rfl⟩
  · intro e he
    simp [req_wrapper, he]
  · intro i hi
    simp [req_wrapper, hi]

/-- C9: the trailing return path of the querystring wrapper is
unreachable: the try/except/else statement always leaves the wrapper, so
the wrapper equals the same wrapper with the final return statement
removed, and every execution either raises RequestSchemaValidationError
or returns from the success branch that passes query_args. -/
theorem querystring_dead_return_unreachable {A R : Type} (mc : ModelClass)
    (handler : A → List (String × ModelInstance) → R) (args : A) (reqArgs : Map) :
    qs_wrapper mc handler args reqArgs = qs_wrapper_trimmed mc handler args reqArgs ∧
    (qs_tryBlock mc handler args reqArgs).2.isSome = true ∧
    (qs_wrapper mc handler args reqArgs =
        ([], .error .requestSchemaValidationError) ∨
      ∃ i, qs_wrapper mc handler args reqArgs =
        ([(args, [("query_args", i)])],
          .ok (some (handler args [("query_args", i)])))) := by
  cases h : construct mc reqArgs with
  | error e =>
    refine ⟨?_, ?_, Or.inl ?_⟩ <;>
      simp [qs_wrapper, qs_wrapper_trimmed, qs_tryBlock, h]
  | ok i =>
    refine ⟨?_, ?_, Or.inr ⟨i, ?_⟩⟩ <;>
      simp [qs_wrapper, qs_wrapper_trimmed, qs_tryBlock, h]

/-- C5: with the effective status registered, the response wrapper
constructs the model from a dict body (a ValidationError becoming
ResponseSchemaValidationError), uses a body of exactly the model class as
is, rejects any other value shape, and on success returns the 3-tuple of
the serialized mapping with the original status_or_headers and headers
elements; a bare mapping with implicit status 200 yields the tuple with
None for both trailing elements. -/
theorem response_validation_branch (mc : ModelClass) (reg : List (Int × Schema))
    (r : HandlerResult) (v : Body) (soh : SOH) (hd : Option String)
    (hu : unpack r = (v, soh, hd))
    (hreg : (reg.lookup (effectiveStatus soh)).isSome = true) :
    (∀ m i, v = .map m → construct mc m = .ok i →
        responseWrapperStep mc reg r =
          .ok (.tuple3 (.map (serializeInstance i)) soh hd)) ∧
    (∀ m, v = .map m → construct mc m = .error .validationError →
        responseWrapperStep mc reg r = .error .responseSchemaValidationError) ∧
    (∀ i, v = .inst i → i.cls = mc →
        responseWrapperStep mc reg r =
          .ok (.tuple3 (.map (serializeInstance i)) soh hd)) ∧
    (∀ i, v = .inst i → i.cls ≠ mc →
        responseWrapperStep mc reg r = .error .responseSchemaValidationError) ∧
    (v = .other →
        responseWrapperStep mc reg r = .error .responseSchemaValidationError) ∧
    (∀ m i, r = .bare (.map m) → construct mc m = .ok i →
        responseWrapperStep mc reg r =
          .ok (.tuple3 (.map (serializeInstance i)) .noneV none)) := by
  refine ⟨?_, ?_, ?_, ?_, ?_, ?_⟩
  · intro m i hv hct
    subst hv
    simp [responseWrapperStep, hu, hreg, hct]
  · intro m hv hct
    subst hv
    simp [responseWrapperStep, hu, hreg, hct]
  · intro i hv hcls
    subst hv
    simp [responseWrapperStep, hu, hreg, hcls]
  · intro i hv hcls
    subst hv
    simp [responseWrapperStep, hu, hreg, hcls]
  · intro hv
    subst hv
    simp [responseWrapperStep, hu, hreg]
  · intro m i hr hct
    subst hr
    simp only [unpack, Prod.mk.injEq] at hu
    obtain ⟨hv, hs, hh⟩ := hu
    subst hs
    simp [responseWrapperStep, unpack, hreg, hct]

/-- Witness for C5 at a concrete model, registry and bare mapping body. -/
theorem response_validation_branch_witness :
    responseWrapperStep mcU regU (.bare (.map exUMap)) =
      .ok (.tuple3 (.map (serializeInstance exUInst)) .noneV none) :=
  (response_validation_branch mcU regU (.bare (.map exUMap)) (.map exUMap)
      .noneV none rfl rfl).1 exUMap exUInst rfl rfl

/-- C6: a handler result whose effective status has no registered schema
is returned unchanged by the response wrapper, same value and same tuple
shape. -/
theorem response_unregistered_status_identity (mc : ModelClass)
    (reg : List (Int × Schema)) (r : HandlerResult)
    (hreg : (reg.lookup (responseStatus r)).isSome = false) :
    responseWrapperStep mc reg r = .ok r := by
  rcases hu : unpack r with ⟨v, soh, hd⟩
  have hs : (reg.lookup (effectiveStatus soh)).isSome = false := by
    have h := hreg
    rw [responseStatus, hu] at h
    exact h
  simp [responseWrapperStep, hu, hs]

/-- Witness for C6: an empty registry returns a bare result unchanged. -/
theorem response_unregistered_status_identity_witness :
    responseWrapperStep modelA [] (.bare .other) = .ok (.bare .other) :=
  response_unregistered_status_identity modelA [] (.bare .other) rfl

/-- C7: the effective status is 200 when the handler result is not a
tuple, when the second tuple element is absent or None, and when the
second element is a Headers, dict or list value; otherwise the second
element is read as the numeric status code. -/
theorem response_status_determination :
    (∀ v, responseStatus (.bare v) = 200) ∧
    (∀ v, responseStatus (.tuple1 v) = 200) ∧
    (∀ r, (unpack r).2.1 = SOH.noneV → responseStatus r = 200) ∧
    (∀ r h, (unpack r).2.1 = SOH.headersV h → responseStatus r = 200) ∧
    (∀ r, (unpack r).2.1 = SOH.dictV → responseStatus r = 200) ∧
    (∀ r, (unpack r).2.1 = SOH.listV → responseStatus r = 200) ∧
    (∀ r n, (unpack r).2.1 = SOH.intV n → responseStatus r = n) := by
  refine ⟨fun v => rfl, fun v => rfl, ?_, ?_, ?_, ?_, ?_⟩
  · intro r h
    simp [responseStatus, h, effectiveStatus]
  · intro r hv h
    simp [responseStatus, h, effectiveStatus]
  · intro r h
    simp [responseStatus, h, effectiveStatus]
  · intro r h
    simp [responseStatus, h, effectiveStatus]
  · intro r n h
    simp [responseStatus, h, effectiveStatus]

/-- C10: in the mapping branch of the response wrapper only
ValidationError is translated into ResponseSchemaValidationError and a
TypeError from model construction propagates unchanged, while the
querystring and request-body wrappers translate the same TypeError into
RequestSchemaValidationError. -/
theorem type_error_translation_asymmetry {A R : Type} (mc : ModelClass)
    (reg : List (Int × Schema)) (handler : A → List (String × ModelInstance) → R)
    (args : A) (m : Map)
    (hreg : (reg.lookup ((200 : Int))).isSome = true)
    (hte : construct mc m = .error .typeError) :
    responseWrapperStep mc reg (.bare (.map m)) = .error .typeError ∧
    qs_wrapper mc handler args m = ([], .error .requestSchemaValidationError) ∧
    req_wrapper mc handler args (.mapping m) =
      ([], .error .requestSchemaValidationError) ∧
    (∀ m2, construct mc m2 = .error .validationError →
        responseWrapperStep mc reg (.bare (.map m2)) =
          .error .responseSchemaValidationError) := by
  refine ⟨?_, ?_, ?_, ?_⟩
  · simp [responseWrapperStep, unpack, effectiveStatus, hreg, hte]
  · simp [qs_wrapper, qs_tryBlock, hte]
  · simp [req_wrapper, constructFromJson, hte]
  · intro m2 h2
    simp [responseWrapperStep, unpack, effectiveStatus, hreg, h2]

/-- Witness for C10 at a dataclass model handed an unexpected keyword. -/
theorem type_error_translation_asymmetry_witness :
    responseWrapperStep mcD regD (.bare (.map [("z", .vint 0)])) =
        .error .typeError ∧
    qs_wrapper mcD exHandler 0 [("z", .vint 0)] =
        ([], .error .requestSchemaValidationError) :=
  ⟨(type_error_translation_asymmetry mcD regD exHandler 0 [("z", .vint 0)]
      rfl rfl).1,
    (type_error_translation_asymmetry mcD regD exHandler 0 [("z", .vint 0)]
      rfl rfl).2.1⟩

/-- Helper: a field value produced by keyword construction has the
declared type, given a well typed default. -/
theorem constructField_ok_hasTy (m : Map) (f : FieldSpec) (v : Val)
    (hwt : f.defaultWellTyped = true) (h : constructField m f = .ok v) :
    v.hasTy f.ty = true := by
  unfold constructField at h
  cases hl : m.lookup f.name with
  | some w =>
    rw [hl] at h
    cases hty : w.hasTy f.ty with
    | true =>
      simp [hty] at h
      subst h
      exact hty
    | false => simp [hty] at h
  | none =>
    rw [hl] at h
    cases hd : f.default with
    | some d =>
      rw [hd] at h
      simp at h
      subst h
      have hw := hwt
      simp [FieldSpec.defaultWellTyped, hd] at hw
      exact hw
    | none =>
      rw [hd] at h
      simp at h

/-- Helper: the keys of the constructed value list are the declared field
names, in declaration order. -/
theorem constructFields_keys (m : Map) :
    ∀ fs vs, constructFields m fs = .ok vs →
      vs.map Prod.fst = fs.map FieldSpec.name := by
  intro fs
  induction fs with
  | nil =>
    intro vs h
    simp [constructFields] at h
    subst h
    simp
  | cons f fs ih =>
    intro vs h
    unfold constructFields at h
    cases hcf : constructField m f with
    | error e =>
      rw [hcf] at h
      simp at h
    | ok v =>
      rw [hcf] at h
      cases hcs : constructFields m fs with
      | error e =>
        rw [hcs] at h
        simp at h
      | ok ws =>
        rw [hcs] at h
        simp at h
        subst h
        simp [ih ws hcs]

/-- Helper: constructed values align with the declared fields, name by
name, each value of the declared type. -/
theorem constructFields_welltyped (m : Map) :
    ∀ fs vs, (∀ f ∈ fs, f.defaultWellTyped = true) →
      constructFields m fs = .ok vs →
      List.Forall₂ (fun (f : FieldSpec) (p : String × Val) =>
        p.1 = f.name ∧ p.2.hasTy f.ty = true) fs vs := by
  intro fs
  induction fs with
  | nil =>
    intro vs _ h
    simp [constructFields] at h
    subst h
    exact List.Forall₂.nil
  | cons f fs ih =>
    intro vs hwt h
    unfold constructFields at h
    cases hcf : constructField m f with
    | error e =>
      rw [hcf] at h
      simp at h
    | ok v =>
      rw [hcf] at h
      cases hcs : constructFields m fs with
      | error e =>
        rw [hcs] at h
        simp at h
      | ok ws =>
        rw [hcs] at h
        simp at h
        subst h
        refine List.Forall₂.cons
          ⟨rfl, constructField_ok_hasTy m f v (hwt f (List.mem_cons_self f fs)) hcf⟩
          (ih ws (fun g hg => hwt g (List.mem_cons_of_mem f hg)) hcs)

/-- Helper: construction of one field ignores a leading binding whose key
is not the field name. -/
theorem constructField_skip (k : String) (w : Val) (m : Map) (f : FieldSpec)
    (hk : f.name ≠ k) : constructField ((k, w) :: m) f = constructField m f := by
  have hb : (f.name == k) = false := beq_eq_false_iff_ne.mpr hk
  simp [constructField, List.lookup, hb]

/-- Helper: construction of a field list ignores a leading binding whose
key names none of the fields. -/
theorem constructFields_skip (k : String) (w : Val) (m : Map) :
    ∀ fs : List FieldSpec, (∀ f ∈ fs, f.name ≠ k) →
      constructFields ((k, w) :: m) fs = constructFields m fs := by
  intro fs
  induction fs with
  | nil => intro _; rfl
  | cons f fs ih =>
    intro hk
    unfold constructFields
    rw [constructField_skip k w m f (hk f (List.mem_cons_self f fs)),
      ih (fun g hg => hk g (List.mem_cons_of_mem f hg))]

/-- Helper: reconstructing from an aligned, well typed value list with
distinct field names gives back the same value list. -/
theorem constructFields_roundtrip (fs : List FieldSpec) (vs : List (String × Val))
    (hal : List.Forall₂ (fun (f : FieldSpec) (p : String × Val) =>
      p.1 = f.name ∧ p.2.hasTy f.ty = true) fs vs) :
    (fs.map FieldSpec.name).Nodup → constructFields vs fs = .ok vs := by
  induction hal with
  | nil => intro _; rfl
  | @cons f p fs ps hp hps ih =>
    intro hnd
    rw [List.map_cons, List.nodup_cons] at hnd
    obtain ⟨hnotin, hndtl⟩ := hnd
    obtain ⟨hp1, hp2⟩ := hp
    rcases p with ⟨pn, pv⟩
    obtain rfl : pn = f.name := hp1
    have hhead : constructField ((f.name, pv) :: ps) f = .ok pv := by
      simp [constructField, List.lookup]
      exact hp2
    have hskip : constructFields ((f.name, pv) :: ps) fs = constructFields ps fs :=
      constructFields_skip f.name pv ps fs
        (fun g hg hEq => hnotin (hEq ▸ List.mem_map_of_mem FieldSpec.name hg))
    simp only [constructFields, hhead, hskip, ih hndtl]

/-- Helper: a value list whose keys are the declared field names raises no
unexpected-keyword TypeError. -/
theorem no_extra_keys (mc : ModelClass) (vs : List (String × Val))
    (hkeys : vs.map Prod.fst = mc.fields.map FieldSpec.name) :
    (vs.any fun kv => mc.fields.all fun f => f.name != kv.1) = false := by
  rw [List.any_eq_false]
  rintro ⟨kvn, kvv⟩ hkv hall
  have hmem : kvn ∈ mc.fields.map FieldSpec.name := by
    rw [← hkeys]
    exact List.mem_map_of_mem Prod.fst hkv
  obtain ⟨f, hf, hfn⟩ := List.mem_map.mp hmem
  rw [List.all_eq_true] at hall
  have hne := hall f hf
  simp at hne
  exact hne hfn

/-- C8: for a model class with distinct field names and well typed
defaults, validate-then-serialize on an accepted mapping yields a mapping
whose keys are exactly the declared field names, and applying the
validate-then-serialize step to that output yields the same mapping
(idempotence). -/
theorem validate_serialize_idempotent (mc : ModelClass) (m : Map) (i : ModelInstance)
    (hnd : (mc.fields.map FieldSpec.name).Nodup)
    (hwt : ∀ f ∈ mc.fields, f.defaultWellTyped = true)
    (hok : construct mc m = .ok i) :
    (serializeInstance i).map Prod.fst = mc.fields.map FieldSpec.name ∧
    validateSerialize mc (serializeInstance i) = .ok (serializeInstance i) := by
  unfold construct at hok
  by_cases hdc : (mc.isDataclass && m.any fun kv =>
      mc.fields.all fun f => f.name != kv.1) = true
  · simp [hdc] at hok
  · rw [if_neg hdc] at hok
    cases hcf : constructFields m mc.fields with
    | error e =>
      rw [hcf] at hok
      simp at hok
    | ok vs =>
      rw [hcf] at hok
      simp at hok
      subst hok
      have hser : serializeInstance ⟨mc, vs⟩ = vs := by
        simp [serializeInstance, asdict, ModelInstance.dict]
      have hkeys := constructFields_keys m mc.fields vs hcf
      have hal := constructFields_welltyped m mc.fields vs hwt hcf
      have hrt := constructFields_roundtrip mc.fields vs hal hnd
      have hguard : (vs.any fun kv => mc.fields.all fun f => f.name != kv.1) = false :=
        no_extra_keys mc vs hkeys
      refine ⟨by rw [hser]; exact hkeys, ?_⟩
      rw [hser]
      simp [validateSerialize, construct, hguard, hrt, serializeInstance,
        asdict, ModelInstance.dict]

/-- Witness for C8 at a concrete model and accepted mapping. -/
theorem validate_serialize_idempotent_witness :
    (serializeInstance exUInst).map Prod.fst = mcU.fields.map FieldSpec.name ∧
    validateSerialize mcU (serializeInstance exUInst) = .ok (serializeInstance exUInst) :=
  validate_serialize_idempotent mcU exUMap exUInst (by decide) (by decide) rfl

end QuartSchema
